import Mathlib

/-!
Shallow embedding of the godocker container runtime core
(container orchestrator, isolation bootstrapper, resource limiter,
network provisioner), together with theorems about its behaviour.

External effects (filesystem, process spawning, signals, netlink
commands) are modelled by explicit oracle records ("worlds") consumed
by the embedded operations; each operation returns its updated
registry, its Go-style result, and a trace of the observable actions
it performed.
-/

set_option autoImplicit false

namespace GoDocker

/-- Lifecycle status of a container record (`StatusRunning` / `StatusStopped`). -/
inductive Status where
  | running
  | stopped
deriving DecidableEq, Repr

/-- `resources.ResourceConfig`: memory limit string, cpu core set, cpu share weight. -/
structure ResourceConfig where
  memoryLimit : String := ""
  cpuSet : String := ""
  cpuShare : Int := 0
deriving DecidableEq, Repr

/-- `container.Config`: the immutable container request. -/
structure Config where
  name : String := ""
  image : String := ""
  command : List String := []
  tty : Bool := false
  detach : Bool := false
  network : String := ""
  resource : ResourceConfig := {}
deriving DecidableEq, Repr

/-- `container.ContainerInfo`: the registry record for one container. -/
structure ContainerInfo where
  id : String := ""
  name : String := ""
  pid : Nat := 0
  image : String := ""
  command : List String := []
  status : Status := .running
  createTime : Nat := 0
  config : Config := {}
deriving DecidableEq, Repr

/-- The `runningContainers` map, keyed by container id. -/
abbrev Registry := List (String × ContainerInfo)

/-- Go-level errors surfaced by the orchestrator and its collaborators. -/
inductive GoErr where
  | duplicateName (name : String)
  | rootfsPrep
  | processStart
  | notFound (id : String)
  | findProcessFailed
  | killFailed
  | waitFailed
  | stopFailed (e : GoErr)
  | invalidMemorySpec (s : String)
  | cgroupFs (op : String)
  | unsupportedNetworkMode (mode : String)
  | netSetup (step : String)
deriving DecidableEq, Repr

/-- Messages printed (not returned) by the orchestrator. -/
inductive LogEntry where
  | resourceWarn
  | networkWarn
  | removeAllWarn
  | exited (idPref : String) (code : Int)
deriving DecidableEq, Repr

/-- Signals sent by `StopContainer` via `process.Signal` / `process.Kill`. -/
inductive SigAction where
  | sigterm (pid : Nat)
  | kill (pid : Nat)
deriving DecidableEq, Repr

/-- Map lookup on the registry (`runningContainers[containerId]`). -/
def lookupReg : Registry → String → Option ContainerInfo
  | [], _ => none
  | (k, c) :: rest, id => if k = id then some c else lookupReg rest id

/-- Map deletion (`delete(runningContainers, containerId)`). -/
def deleteReg (reg : Registry) (id : String) : Registry :=
  reg.filter (fun p => p.1 ≠ id)

/-- Map insertion (`runningContainers[containerId] = container`). -/
def insertReg (reg : Registry) (id : String) (c : ContainerInfo) : Registry :=
  (id, c) :: deleteReg reg id

/-- In-place status mutation through the record pointer (`container.Status = ...`). -/
def setStatus (reg : Registry) (id : String) (st : Status) : Registry :=
  reg.map (fun p => if p.1 = id then (p.1, { p.2 with status := st }) else p)

/-- The duplicate-name scan over `runningContainers` in `NewContainer`. -/
def nameInRegistry (reg : Registry) (name : String) : Bool :=
  reg.any (fun p => p.2.name = name)

/-! ### String primitives

Structural re-implementations of the Go string operations used by the
runtime (`strings.ToLower`, `strings.HasSuffix` with a one-character
suffix, `strings.TrimSuffix`, slicing, `strings.Split`), so that every
definition evaluates by kernel reduction. -/

/-- `strings.ToLower`. -/
def lowerStr (s : String) : String := ⟨s.data.map Char.toLower⟩

/-- `strings.HasSuffix s (string c)` for a single character `c`. -/
def lastCharIs (s : String) (c : Char) : Bool := s.data.getLast? = some c

/-- `strings.TrimSuffix` for a one-character suffix (drop the last char). -/
def dropLastChar (s : String) : String := ⟨s.data.dropLast⟩

/-- Go string slicing `s[:n]`. -/
def takeStr (s : String) (n : Nat) : String := ⟨s.data.take n⟩

/-- Splitting a character list at every occurrence of `sep`
(`strings.Split` semantics: no collapsing, `"" ↦ [""]`). -/
def splitChar (sep : Char) : List Char → List (List Char)
  | [] => [[]]
  | c :: rest =>
    let r := splitChar sep rest
    if c = sep then [] :: r
    else (c :: r.headD []) :: r.tail

/-- `strings.Split s " "`. -/
def goSplitSpace (s : String) : List String :=
  (splitChar ' ' s.data).map (fun l => ⟨l⟩)

/-! ### Memory limit parsing (`resources.parseMemoryLimit`) -/

/-- Digits of a decimal string read into a natural number. -/
def digitsToNat (l : List Char) : Nat :=
  l.foldl (fun acc c => acc * 10 + (c.toNat - '0'.toNat)) 0

/-- `strconv.ParseInt(s, 10, 64)`: optional sign, decimal digits, int64 range. -/
def goParseInt64 (s : String) : Option Int :=
  match s.data with
  | [] => none
  | c :: rest =>
    let neg : Bool := c = '-'
    let digits : List Char := if c = '-' ∨ c = '+' then rest else c :: rest
    if digits = [] ∨ ¬ digits.all Char.isDigit then none
    else
      let n : Int := digitsToNat digits
      let v : Int := if neg then -n else n
      if v < -(2 ^ 63) ∨ 2 ^ 63 - 1 < v then none else some v

/-- Two's-complement wrap of an integer into the int64 range. -/
def wrap64 (v : Int) : Int :=
  (v + 2 ^ 63) % 2 ^ 64 - 2 ^ 63

/-- Suffix stripping step of `parseMemoryLimit`: the lowered input with its
`k`/`m`/`g` suffix removed, paired with the byte multiplier. -/
def stripMemSuffix (s : String) : String × Int :=
  if lastCharIs s 'k' then (dropLastChar s, 1024)
  else if lastCharIs s 'm' then (dropLastChar s, 1024 * 1024)
  else if lastCharIs s 'g' then (dropLastChar s, 1024 * 1024 * 1024)
  else (s, 1)

/-- `resources.parseMemoryLimit`: size string with optional k/m/g suffix to bytes. -/
def parseMemoryLimit (memoryLimit : String) : Except GoErr Int :=
  let stripped := stripMemSuffix (lowerStr memoryLimit)
  match goParseInt64 stripped.1 with
  | none => .error (.invalidMemorySpec stripped.1)
  | some v => .ok (wrap64 (v * stripped.2))

/-! ### IP allocation (`network.allocateIP`) -/

/-- `network.DefaultIPPrefix`. -/
def defaultIPBase : String := "172.17.0."

/-- `network.DefaultGateway`. -/
def DefaultGateway : String := "172.17.0.1"

/-- `network.DefaultSubnet`. -/
def DefaultSubnet : String := "172.17.0.0/16"

/-- The last-octet computation of `allocateIP`: `os.Getpid() % 254`,
remapping values below 2 to 100. -/
def allocLastOctet (selfPid : Nat) : Nat :=
  let lastOctet := selfPid % 254
  if lastOctet < 2 then 100 else lastOctet

/-- `network.allocateIP`: derives the container address from the calling
process id. -/
def allocateIP (selfPid : Nat) : String :=
  defaultIPBase ++ toString (allocLastOctet selfPid)

/-! ### Resource limiter (`resources.ApplyResourceLimits`) -/

/-- Oracle for the cgroup filesystem operations of the resource limiter. -/
structure CgroupWorld where
  mkdirOk : Bool := true
  writeOk : Bool := true
deriving Repr

/-- `resources.setupMemoryLimit`: parse the limit, create the cgroup
directory, write the limit, swappiness and tasks files. -/
def setupMemoryLimit (w : CgroupWorld) (memoryLimit : String) : Except GoErr Unit :=
  match parseMemoryLimit memoryLimit with
  | .error e => .error e
  | .ok _ =>
    if ¬ w.mkdirOk then .error (.cgroupFs "mkdir")
    else if ¬ w.writeOk then .error (.cgroupFs "write")
    else .ok ()

/-- `resources.setupCpuSet` / `resources.setupCpuShare`: create the cgroup
directory and write the control files. -/
def setupCpuCgroup (w : CgroupWorld) : Except GoErr Unit :=
  if ¬ w.mkdirOk then .error (.cgroupFs "mkdir")
  else if ¬ w.writeOk then .error (.cgroupFs "write")
  else .ok ()

/-- `resources.ApplyResourceLimits`: no-op on an empty spec, otherwise apply
memory, cpuset and cpu-share limits in order, failing on the first error. -/
def ApplyResourceLimits (w : CgroupWorld) (config : ResourceConfig) : Except GoErr Unit :=
  if config.memoryLimit = "" ∧ config.cpuSet = "" ∧ config.cpuShare = 0 then .ok ()
  else
    match (if config.memoryLimit ≠ "" then setupMemoryLimit w config.memoryLimit else .ok ()) with
    | .error e => .error e
    | .ok _ =>
      match (if config.cpuSet ≠ "" then setupCpuCgroup w else .ok ()) with
      | .error e => .error e
      | .ok _ =>
        if 0 < config.cpuShare then setupCpuCgroup w else .ok ()

/-! ### Network provisioner (`network.SetupNetwork`) -/

/-- `network.NetworkConfig`. -/
structure NetworkConfig where
  mode : String := ""
  ipAddress : String := ""
  gateway : String := ""
  subnet : String := ""
  macAddr : String := ""
deriving DecidableEq, Repr

/-- Kernel-facing actions the network provisioner can perform. -/
inductive NetAction where
  | setupBridge
  | createVethPair (veth peer : String)
  | configNetns (pid : Nat) (ip : String)
  | connectBridge (veth : String)
  | natSetup
deriving DecidableEq, Repr

/-- Oracle for the external commands issued during bridge setup, plus the
orchestrator's own process id (consumed by `allocateIP`). -/
structure NetWorld where
  bridgeOk : Bool := true
  vethOk : Bool := true
  netnsOk : Bool := true
  connectOk : Bool := true
  forwardOk : Bool := true
  hostPid : Nat := 1000
deriving Repr

/-- `network.SetupNetwork`: dispatch on the mode string; `bridge` runs the
five-step bring-up, `host`/`none` do nothing, anything else is rejected. -/
def SetupNetwork (w : NetWorld) (netMode containerID : String) (pid : Nat) :
    Except GoErr NetworkConfig × List NetAction :=
  if netMode = "bridge" then
    let vethName := "veth-" ++ takeStr containerID 8
    let ipAddr := allocateIP w.hostPid
    if ¬ w.bridgeOk then (.error (.netSetup "bridge"), [.setupBridge])
    else if ¬ w.vethOk then
      (.error (.netSetup "veth"), [.setupBridge, .createVethPair vethName "eth0"])
    else if ¬ w.netnsOk then
      (.error (.netSetup "netns"),
        [.setupBridge, .createVethPair vethName "eth0", .configNetns pid ipAddr])
    else if ¬ w.connectOk then
      (.error (.netSetup "connect"),
        [.setupBridge, .createVethPair vethName "eth0", .configNetns pid ipAddr,
          .connectBridge vethName])
    else if ¬ w.forwardOk then
      (.error (.netSetup "nat"),
        [.setupBridge, .createVethPair vethName "eth0", .configNetns pid ipAddr,
          .connectBridge vethName, .natSetup])
    else
      (.ok { mode := netMode, ipAddress := ipAddr, gateway := DefaultGateway,
             subnet := DefaultSubnet },
        [.setupBridge, .createVethPair vethName "eth0", .configNetns pid ipAddr,
          .connectBridge vethName, .natSetup])
  else if netMode = "host" then (.ok { mode := netMode }, [])
  else if netMode = "none" then (.ok { mode := netMode }, [])
  else (.error (.unsupportedNetworkMode netMode), [])

/-! ### Container orchestrator (`container.NewContainer` and friends) -/

/-- Oracle for the external effects of `NewContainer`: rootfs preparation,
process spawning, and the post-spawn collaborators. -/
structure CreateWorld where
  rootfsOk : Bool := true
  spawnOk : Bool := true
  spawnPid : Nat := 0
  now : Nat := 0
  cgroup : CgroupWorld := {}
  net : NetWorld := {}
deriving Repr

/-- `container.NewContainer`: duplicate-name check, rootfs preparation,
spawn, registry insertion, then best-effort resource limits and networking. -/
def NewContainer (reg : Registry) (containerId : String) (w : CreateWorld)
    (config : Config) : Registry × Except GoErr String × List LogEntry :=
  if config.name ≠ "" ∧ nameInRegistry reg config.name = true then
    (reg, .error (.duplicateName config.name), [])
  else
    let effName := if config.name = "" then takeStr containerId 12 else config.name
    let config := { config with name := effName }
    if ¬ w.rootfsOk then (reg, .error .rootfsPrep, [])
    else if ¬ w.spawnOk then (reg, .error .processStart, [])
    else
      let c : ContainerInfo :=
        { id := containerId, name := effName, pid := w.spawnPid,
          image := config.image, command := config.command, status := .running,
          createTime := w.now, config := config }
      let reg' := insertReg reg containerId c
      let resourceLogs :=
        match ApplyResourceLimits w.cgroup config.resource with
        | .ok _ => []
        | .error _ => [LogEntry.resourceWarn]
      let netLogs :=
        if config.network ≠ "" ∧ config.network ≠ "none" then
          match (SetupNetwork w.net config.network containerId w.spawnPid).1 with
          | .ok _ => []
          | .error _ => [LogEntry.networkWarn]
        else []
      (reg', .ok containerId, resourceLogs ++ netLogs)

/-- Oracle for `StopContainer`: `os.FindProcess`, `process.Signal(SIGTERM)`
and `process.Kill`. -/
structure StopWorld where
  findProcessOk : Bool := true
  sigtermOk : Bool := true
  killOk : Bool := true
deriving Repr

/-- `container.StopContainer`: no-op when already stopped, otherwise SIGTERM
with a kill fallback, marking the record stopped once a signal is accepted. -/
def StopContainer (reg : Registry) (w : StopWorld) (containerId : String) :
    Registry × Except GoErr Unit × List SigAction :=
  match lookupReg reg containerId with
  | none => (reg, .error (.notFound containerId), [])
  | some c =>
    if c.status = .stopped then (reg, .ok (), [])
    else if ¬ w.findProcessOk then (reg, .error .findProcessFailed, [])
    else if w.sigtermOk then
      (setStatus reg containerId .stopped, .ok (), [.sigterm c.pid])
    else if w.killOk then
      (setStatus reg containerId .stopped, .ok (), [.sigterm c.pid, .kill c.pid])
    else (reg, .error .killFailed, [.sigterm c.pid, .kill c.pid])

/-- Oracle for `RemoveContainer`: the embedded stop plus `os.RemoveAll`. -/
structure RemoveWorld where
  stop : StopWorld := {}
  removeAllOk : Bool := true
deriving Repr

/-- `container.RemoveContainer`: stop first when running (propagating the
failure), then best-effort filesystem cleanup and registry deletion. -/
def RemoveContainer (reg : Registry) (w : RemoveWorld) (containerId : String) :
    Registry × Except GoErr Unit × List SigAction × List LogEntry :=
  match lookupReg reg containerId with
  | none => (reg, .error (.notFound containerId), [], [])
  | some c =>
    let stopStep :=
      if c.status = .running then StopContainer reg w.stop containerId
      else (reg, .ok (), [])
    match stopStep.2.1 with
    | .error e => (stopStep.1, .error (.stopFailed e), stopStep.2.2, [])
    | .ok _ =>
      let logs := if w.removeAllOk then [] else [LogEntry.removeAllWarn]
      (deleteReg stopStep.1 containerId, .ok (), stopStep.2.2, logs)

/-- Oracle for `WaitContainer`: `os.FindProcess`, `process.Wait`, and the
true termination code of the tracked process. -/
structure WaitWorld where
  findProcessOk : Bool := true
  waitOk : Bool := true
  exitCode : Int := 0
deriving Repr

/-- `container.WaitContainer`: no-op when already stopped, otherwise wait for
the tracked process, mark the record stopped and print the exit code.
The function itself returns only a Go `error`. -/
def WaitContainer (reg : Registry) (w : WaitWorld) (containerId : String) :
    Registry × Except GoErr Unit × List LogEntry :=
  match lookupReg reg containerId with
  | none => (reg, .error (.notFound containerId), [])
  | some c =>
    if c.status = .stopped then (reg, .ok (), [])
    else if ¬ w.findProcessOk then (reg, .error .findProcessFailed, [])
    else if ¬ w.waitOk then (reg, .error .waitFailed, [])
    else
      (setStatus reg containerId .stopped, .ok (),
        [.exited (takeStr containerId 12) w.exitCode])

/-- `NewContainer` folded over a list of create calls, reporting whether
every call succeeded. -/
def createAll : Registry → List (String × CreateWorld × Config) → Registry × Bool
  | reg, [] => (reg, true)
  | reg, (id, w, cfg) :: rest =>
    match NewContainer reg id w cfg with
    | (reg', .ok _, _) => createAll reg' rest
    | (reg', .error _, _) => (reg', false)

/-! ### Isolation bootstrapper (`container.InitContainer`) -/

/-- The environment-variable handoff read by the bootstrapper
(`os.Getenv` returns the empty string for an absent variable). -/
structure InitEnv where
  rootfs : String := ""
  cmd : String := ""
  name : String := ""
deriving DecidableEq, Repr

/-- Errors of the isolation bootstrapper. -/
inductive InitErr where
  | missingConfiguration
  | sethostnameFailed
  | mountFailed
  | chrootFailed
  | chdirFailed
  | lookPathFailed (cmd : String)
deriving DecidableEq, Repr

/-- Setup actions attempted by the bootstrapper, in order. -/
inductive InitAction where
  | setHost (name : String)
  | mountAll (rootfs : String)
  | chroot (rootfs : String)
  | chdirRoot
  | execCmd (path : String) (args : List String)
deriving DecidableEq, Repr

/-- Oracle for the bootstrapper's syscalls and `exec.LookPath`. -/
structure InitWorld where
  sethostnameOk : Bool := true
  mountsOk : Bool := true
  chrootOk : Bool := true
  chdirOk : Bool := true
  lookPath : String → Option String := fun s => some s

/-- `container.InitContainer`: check the environment contract, then set the
hostname, mount, chroot, chdir and exec the user command. The final exec
replaces the process image, recorded here as the last action. -/
def InitContainer (env : InitEnv) (w : InitWorld) :
    Except InitErr Unit × List InitAction :=
  if env.rootfs = "" ∨ env.cmd = "" then (.error .missingConfiguration, [])
  else if ¬ w.sethostnameOk then (.error .sethostnameFailed, [.setHost env.name])
  else if ¬ w.mountsOk then
    (.error .mountFailed, [.setHost env.name, .mountAll env.rootfs])
  else if ¬ w.chrootOk then
    (.error .chrootFailed,
      [.setHost env.name, .mountAll env.rootfs, .chroot env.rootfs])
  else if ¬ w.chdirOk then
    (.error .chdirFailed,
      [.setHost env.name, .mountAll env.rootfs, .chroot env.rootfs, .chdirRoot])
  else
    let cmdParts := goSplitSpace env.cmd
    match w.lookPath (cmdParts.headD "") with
    | none =>
      (.error (.lookPathFailed (cmdParts.headD "")),
        [.setHost env.name, .mountAll env.rootfs, .chroot env.rootfs, .chdirRoot])
    | some path =>
      (.ok (),
        [.setHost env.name, .mountAll env.rootfs, .chroot env.rootfs, .chdirRoot,
          .execCmd path cmdParts])

/-! ## Registry lemmas -/

theorem lookupReg_insertReg_self (reg : Registry) (id : String) (c : ContainerInfo) :
    lookupReg (insertReg reg id c) id = some c := by
  simp [insertReg, lookupReg]

theorem lookupReg_setStatus (reg : Registry) (id : String) (st : Status) :
    lookupReg (setStatus reg id st) id =
      (lookupReg reg id).map (fun c => { c with status := st }) := by
  induction reg with
  | nil => rfl
  | cons p rest ih =>
    obtain ⟨k, c⟩ := p
    by_cases h : k = id
    · subst h
      show lookupReg
          ((if k = k then (k, { c with status := st }) else (k, c)) :: setStatus rest k st) k = _
      rw [if_pos rfl]
      simp [lookupReg]
    · show lookupReg
          ((if k = id then (k, { c with status := st }) else (k, c)) :: setStatus rest id st) id = _
      rw [if_neg h]
      simp [lookupReg, h, ih]

theorem nameInRegistry_iff (reg : Registry) (n : String) :
    nameInRegistry reg n = true ↔ ∃ p ∈ reg, p.2.name = n := by
  simp [nameInRegistry, List.any_eq_true]

theorem mem_deleteReg {reg : Registry} {id : String} {p : String × ContainerInfo}
    (h : p ∈ deleteReg reg id) : p ∈ reg ∧ p.1 ≠ id := by
  simp only [deleteReg] at h
  have h2 := List.mem_filter.mp h
  exact ⟨h2.1, by simpa using h2.2⟩

theorem mem_setStatus {reg : Registry} {id : String} {st : Status}
    {p : String × ContainerInfo} (h : p ∈ setStatus reg id st) :
    ∃ q ∈ reg, p.1 = q.1 ∧ p.2.name = q.2.name := by
  simp only [setStatus, List.mem_map] at h
  obtain ⟨q, hq, hpq⟩ := h
  refine ⟨q, hq, ?_⟩
  subst hpq
  by_cases hk : q.1 = id <;> simp [hk]

/-! ## Stop lemmas -/

theorem stopContainer_stopped_noop (reg : Registry) (w : StopWorld) (id : String)
    (c : ContainerInfo) (hl : lookupReg reg id = some c) (hs : c.status = .stopped) :
    StopContainer reg w id = (reg, .ok (), []) := by
  simp [StopContainer, hl, hs]

theorem stopContainer_ok_stopped (reg : Registry) (w : StopWorld) (id : String)
    (h : (StopContainer reg w id).2.1 = .ok ()) :
    ∃ c', lookupReg (StopContainer reg w id).1 id = some c' ∧ c'.status = .stopped := by
  unfold StopContainer at h ⊢
  cases hl : lookupReg reg id with
  | none => simp [hl] at h
  | some c =>
    simp only [hl] at h ⊢
    by_cases hs : c.status = .stopped
    · simp only [if_pos hs]
      exact ⟨c, hl, hs⟩
    · rcases hf : w.findProcessOk with _ | _ <;>
      rcases hsig : w.sigtermOk with _ | _ <;>
      rcases hk : w.killOk with _ | _ <;>
        simp_all [lookupReg_setStatus, hl]

theorem stopContainer_error_unchanged (reg : Registry) (w : StopWorld) (id : String)
    (e : GoErr) (h : (StopContainer reg w id).2.1 = .error e) :
    (StopContainer reg w id).1 = reg := by
  unfold StopContainer at h ⊢
  cases hl : lookupReg reg id with
  | none => simp [hl]
  | some c =>
    simp only [hl] at h ⊢
    by_cases hs : c.status = .stopped
    · simp [hs]
    · rcases hf : w.findProcessOk with _ | _ <;>
      rcases hsig : w.sigtermOk with _ | _ <;>
      rcases hk : w.killOk with _ | _ <;>
        simp_all

/-! ## Name bookkeeping lemmas for Create/Remove -/

theorem nameInRegistry_insertReg {reg : Registry} {id n : String} {c : ContainerInfo}
    (h : nameInRegistry (insertReg reg id c) n = true) :
    c.name = n ∨ nameInRegistry reg n = true := by
  rw [insertReg, nameInRegistry_iff] at h
  obtain ⟨p, hp, hname⟩ := h
  rcases List.mem_cons.mp hp with rfl | hmem
  · exact Or.inl hname
  · exact Or.inr ((nameInRegistry_iff reg n).mpr ⟨p, (mem_deleteReg hmem).1, hname⟩)

theorem newContainer_ok_of_free (reg : Registry) (id : String) (w : CreateWorld)
    (config : Config) (hcol : nameInRegistry reg config.name = false)
    (hr : w.rootfsOk = true) (hsp : w.spawnOk = true) :
    (NewContainer reg id w config).2.1 = .ok id := by
  have hdup : ¬ (config.name ≠ "" ∧ nameInRegistry reg config.name = true) := by
    simp [hcol]
  simp [NewContainer, if_neg hdup, hr, hsp]

theorem newContainer_ok_names (reg : Registry) (id : String) (w : CreateWorld)
    (config : Config) (hname : config.name ≠ "")
    (hcol : nameInRegistry reg config.name = false)
    (hr : w.rootfsOk = true) (hsp : w.spawnOk = true) :
    (NewContainer reg id w config).2.1 = .ok id ∧
    ∀ n, nameInRegistry (NewContainer reg id w config).1 n = true →
      config.name = n ∨ nameInRegistry reg n = true := by
  have hdup : ¬ (config.name ≠ "" ∧ nameInRegistry reg config.name = true) := by
    simp [hcol]
  simp only [NewContainer, if_neg hdup, hr, hsp]
  constructor
  · simp
  · intro n hn
    rcases nameInRegistry_insertReg hn with hc | hreg
    · left
      rw [← hc]
      simp [hname]
    · exact Or.inr hreg

theorem createAll_ok (calls : List (String × CreateWorld × Config)) :
    ∀ reg : Registry,
      (∀ x ∈ calls, x.2.1.rootfsOk = true ∧ x.2.1.spawnOk = true ∧
        x.2.2.name ≠ "" ∧ nameInRegistry reg x.2.2.name = false) →
      (calls.map (fun x => x.2.2.name)).Pairwise (· ≠ ·) →
      (createAll reg calls).2 = true := by
  induction calls with
  | nil => intro reg _ _; rfl
  | cons hd tl ih =>
    intro reg hall hpw
    obtain ⟨id, w, cfg⟩ := hd
    obtain ⟨hr, hsp, hname, hcol⟩ := hall _ (List.mem_cons_self _ _)
    obtain ⟨hok, hnames⟩ := newContainer_ok_names reg id w cfg hname hcol hr hsp
    rw [List.map_cons, List.pairwise_cons] at hpw
    obtain ⟨hhd, htlpw⟩ := hpw
    rcases hNC : NewContainer reg id w cfg with ⟨reg', res, logs⟩
    rw [hNC] at hok hnames
    simp only at hok hnames
    subst hok
    simp only [createAll, hNC]
    apply ih reg'
    · intro x hx
      obtain ⟨hr', hsp', hname', _⟩ := hall x (List.mem_cons_of_mem _ hx)
      refine ⟨hr', hsp', hname', ?_⟩
      rw [Bool.eq_false_iff]
      intro htrue
      rcases hnames _ htrue with heq | hreg
      · exact hhd _ (List.mem_map_of_mem _ hx) heq
      · rw [(hall x (List.mem_cons_of_mem _ hx)).2.2.2] at hreg
        exact Bool.false_ne_true hreg
    · exact htlpw

theorem stopContainer_reg_cases (reg : Registry) (w : StopWorld) (id : String) :
    (StopContainer reg w id).1 = reg ∨
    (StopContainer reg w id).1 = setStatus reg id .stopped := by
  unfold StopContainer
  cases hl : lookupReg reg id with
  | none => simp
  | some c =>
    by_cases hs : c.status = .stopped
    · simp [hs]
    · rcases hf : w.findProcessOk with _ | _ <;>
      rcases hsig : w.sigtermOk with _ | _ <;>
      rcases hk : w.killOk with _ | _ <;> simp_all

theorem removeContainer_ok_shape (reg : Registry) (w : RemoveWorld) (id : String)
    (hok : (RemoveContainer reg w id).2.1 = .ok ()) :
    (RemoveContainer reg w id).1 = deleteReg reg id ∨
    (RemoveContainer reg w id).1 = deleteReg (setStatus reg id .stopped) id := by
  unfold RemoveContainer at hok ⊢
  cases _hl : lookupReg reg id with
  | none => simp [_hl] at hok
  | some c =>
    simp only [_hl] at hok ⊢
    by_cases hrun : c.status = .running
    · rcases hres : (StopContainer reg w.stop id).2.1 with e | u
      · simp [hrun, hres] at hok
      · rcases stopContainer_reg_cases reg w.stop id with h1 | h1 <;>
          simp [hrun, hres, h1]
    · simp [hrun]

theorem nameInRegistry_removeContainer_ok {reg : Registry} {w : RemoveWorld}
    {id : String} {c : ContainerInfo} (_hl : lookupReg reg id = some c)
    (huniq : ∀ p ∈ reg, p.1 ≠ id → p.2.name ≠ c.name)
    (hok : (RemoveContainer reg w id).2.1 = .ok ()) :
    nameInRegistry (RemoveContainer reg w id).1 c.name = false := by
  rw [Bool.eq_false_iff]
  intro htrue
  rw [nameInRegistry_iff] at htrue
  obtain ⟨p, hp, hname⟩ := htrue
  rcases removeContainer_ok_shape reg w id hok with hsh | hsh <;> rw [hsh] at hp
  · obtain ⟨hpreg, hpne⟩ := mem_deleteReg hp
    exact huniq p hpreg hpne hname
  · obtain ⟨hpreg, hpne⟩ := mem_deleteReg hp
    obtain ⟨q, hq, hkey, hnm⟩ := mem_setStatus hpreg
    refine huniq q hq ?_ (hnm.symm.trans hname)
    rw [← hkey]
    exact hpne

/-! ## Claim theorems -/

/-- C4: the memory-limit parser maps `"100m"` to `104857600`, `"1g"` to
`1073741824`, `"512k"` to `524288`, and unsuffixed `"2048"` to `2048`
(`k` multiplies by `2^10`, `m` by `2^20`, `g` by `2^30`, no suffix means raw
bytes), and it fails with `InvalidMemorySpec` on any input — such as
`"abc"` — whose numeric part (the lowered input with its suffix stripped)
is not a decimal integer. -/
theorem parseMemoryLimit_spec :
    parseMemoryLimit "100m" = .ok 104857600 ∧
    parseMemoryLimit "1g" = .ok 1073741824 ∧
    parseMemoryLimit "512k" = .ok 524288 ∧
    parseMemoryLimit "2048" = .ok 2048 ∧
    parseMemoryLimit "abc" = .error (.invalidMemorySpec "abc") ∧
    ∀ s : String, goParseInt64 (stripMemSuffix (lowerStr s)).1 = none →
      parseMemoryLimit s = .error (.invalidMemorySpec (stripMemSuffix (lowerStr s)).1) := by
  refine ⟨rfl, rfl, rfl, rfl, rfl, ?_⟩
  intro s h
  simp [parseMemoryLimit, h]

/-- Witness for C4: the general failure clause evaluated at `"abc"`. -/
theorem parseMemoryLimit_spec_witness :
    parseMemoryLimit "abc" = .error (.invalidMemorySpec "abc") :=
  parseMemoryLimit_spec.2.2.2.2.2 "abc" rfl

/-- C9: every address produced by `allocateIP` lies in the `172.17.0.0/16`
block with first three octets `172.17.0`, and its last octet — the calling
process id modulo 254, low values remapped — is between 2 and 253
inclusive, so the reserved values 0 and 1 are never allocated. -/
theorem allocateIP_spec (selfPid : Nat) :
    allocateIP selfPid = "172.17.0." ++ toString (allocLastOctet selfPid) ∧
    2 ≤ allocLastOctet selfPid ∧ allocLastOctet selfPid ≤ 253 := by
  have h : selfPid % 254 < 254 := Nat.mod_lt _ (by omega)
  have hoct : 2 ≤ allocLastOctet selfPid ∧ allocLastOctet selfPid ≤ 253 := by
    by_cases hlt : selfPid % 254 < 2 <;>
      (simp [allocLastOctet, hlt]; try omega)
  exact ⟨rfl, hoct.1, hoct.2⟩

/-- C10: for every network mode other than `bridge`, `host` and `none`,
`SetupNetwork` returns an unsupported-mode error, performs no
configuration action, and returns no network attachment record. -/
theorem setupNetwork_unsupported_mode (w : NetWorld) (netMode containerID : String)
    (pid : Nat) (h1 : netMode ≠ "bridge") (h2 : netMode ≠ "host") (h3 : netMode ≠ "none") :
    SetupNetwork w netMode containerID pid =
      (.error (.unsupportedNetworkMode netMode), []) := by
  simp [SetupNetwork, h1, h2, h3]

/-- Witness for C10: mode `"container"` is rejected with no actions. -/
theorem setupNetwork_unsupported_mode_witness :
    SetupNetwork {} "container" "cid" 7 =
      (.error (.unsupportedNetworkMode "container"), []) :=
  setupNetwork_unsupported_mode {} "container" "cid" 7
    (by decide) (by decide) (by decide)

/-- C8: the isolation bootstrapper fails with `MissingConfiguration` exactly
when the rootfs-path variable or the command-string variable is absent
(empty), in which case it performs no setup action at all; in particular an
absent container name alone never triggers this failure. -/
theorem initContainer_missing_config (env : InitEnv) (w : InitWorld) :
    ((InitContainer env w).1 = .error .missingConfiguration ↔
      env.rootfs = "" ∨ env.cmd = "") ∧
    (env.rootfs = "" ∨ env.cmd = "" →
      InitContainer env w = (.error .missingConfiguration, [])) := by
  by_cases h : env.rootfs = "" ∨ env.cmd = ""
  · simp [InitContainer, h]
  · refine ⟨iff_of_false ?_ h, fun hc => absurd hc h⟩
    intro hcontra
    simp only [InitContainer, if_neg h] at hcontra
    iterate 5 (all_goals (try (split at hcontra)))
    all_goals simp_all

/-- Witness for C8: an environment carrying a command but no rootfs fails
with `MissingConfiguration` and an empty action trace, even though the
container name is present. -/
theorem initContainer_missing_config_witness :
    InitContainer { rootfs := "", cmd := "/bin/sh", name := "web" } {} =
      (.error .missingConfiguration, []) :=
  (initContainer_missing_config { rootfs := "", cmd := "/bin/sh", name := "web" } {}).2
    (Or.inl rfl)

/-- C7: `Stop` on a record whose status is `Stopped` returns success, sends
no signal, and leaves the whole registry unchanged; consequently a second
`Stop` after any successful `Stop` is a no-op (success, no signal, registry
unchanged). -/
theorem stopContainer_stopped_spec (reg : Registry) (w : StopWorld) (id : String) :
    (∀ c, lookupReg reg id = some c → c.status = .stopped →
      StopContainer reg w id = (reg, .ok (), [])) ∧
    ((StopContainer reg w id).2.1 = .ok () → ∀ w' : StopWorld,
      StopContainer (StopContainer reg w id).1 w' id =
        ((StopContainer reg w id).1, .ok (), [])) := by
  constructor
  · intro c hl hs
    exact stopContainer_stopped_noop reg w id c hl hs
  · intro h w'
    obtain ⟨c', hl', hs'⟩ := stopContainer_ok_stopped reg w id h
    exact stopContainer_stopped_noop _ w' id c' hl' hs'

/-- Witness for C7: stopping an already-stopped container is a no-op, and a
second stop after a successful stop of a running container is a no-op. -/
theorem stopContainer_stopped_spec_witness :
    StopContainer [("c1", { id := "c1", status := Status.stopped })] {} "c1" =
      ([("c1", { id := "c1", status := Status.stopped })], .ok (), []) ∧
    StopContainer
        (StopContainer [("c2", { id := "c2", status := Status.running })] {} "c2").1 {} "c2" =
      ((StopContainer [("c2", { id := "c2", status := Status.running })] {} "c2").1,
        .ok (), []) :=
  ⟨(stopContainer_stopped_spec [("c1", { id := "c1", status := Status.stopped })] {} "c1").1
      { id := "c1", status := Status.stopped } rfl rfl,
    (stopContainer_stopped_spec [("c2", { id := "c2", status := Status.running })] {} "c2").2
      rfl {}⟩

/-- C2: when `Create` fails because the image provider cannot produce a root
filesystem or because spawning the isolated process fails, the registry is
left exactly as it was — no partial record is inserted. -/
theorem newContainer_failure_no_mutation (reg : Registry) (containerId : String)
    (w : CreateWorld) (config : Config)
    (h : (NewContainer reg containerId w config).2.1 = .error .rootfsPrep ∨
         (NewContainer reg containerId w config).2.1 = .error .processStart) :
    (NewContainer reg containerId w config).1 = reg := by
  unfold NewContainer at h ⊢
  by_cases hdup : config.name ≠ "" ∧ nameInRegistry reg config.name = true
  · simp [hdup]
  · simp only [if_neg hdup] at h ⊢
    by_cases hr : w.rootfsOk
    · by_cases hsp : w.spawnOk
      · simp [hr, hsp] at h
      · simp [hr, hsp]
    · simp [hr]

/-- Witness for C2: a failing rootfs preparation leaves the empty registry
empty. -/
theorem newContainer_failure_no_mutation_witness :
    (NewContainer [] "cid" { rootfsOk := false } {}).1 = ([] : Registry) :=
  newContainer_failure_no_mutation [] "cid" { rootfsOk := false } {} (Or.inl rfl)

/-- C6: when the duplicate-name check passes and rootfs preparation and the
spawn succeed, `Create` returns the new id with the record in the registry
carrying status `Running` and the spawned process id — for every outcome of
the resource-limit and network collaborators — and failures of those two
post-spawn steps are only logged. -/
theorem newContainer_success_best_effort (reg : Registry) (containerId : String)
    (w : CreateWorld) (config : Config)
    (hdup : ¬ (config.name ≠ "" ∧ nameInRegistry reg config.name = true))
    (hr : w.rootfsOk = true) (hsp : w.spawnOk = true) :
    (NewContainer reg containerId w config).2.1 = .ok containerId ∧
    (∃ c, lookupReg (NewContainer reg containerId w config).1 containerId = some c ∧
      c.status = .running ∧ c.pid = w.spawnPid) ∧
    (∀ e, ApplyResourceLimits w.cgroup config.resource = .error e →
      LogEntry.resourceWarn ∈ (NewContainer reg containerId w config).2.2) ∧
    (config.network ≠ "" → config.network ≠ "none" →
      ∀ e, (SetupNetwork w.net config.network containerId w.spawnPid).1 = .error e →
      LogEntry.networkWarn ∈ (NewContainer reg containerId w config).2.2) := by
  simp only [NewContainer, if_neg hdup, hr, hsp]
  refine ⟨by simp, ⟨_, lookupReg_insertReg_self _ _ _, rfl, rfl⟩, ?_, ?_⟩
  · intro e he
    simp [he]
  · intro hne hnn e he
    simp [hne, hnn, he]

/-- Witness for C6: with an unparsable memory limit and a failing bridge
setup, `Create` still returns the id and a `Running` record with the
spawned pid, and both failures appear in the log. -/
theorem newContainer_success_best_effort_witness :
    (NewContainer [] "cid"
        { spawnPid := 5, net := { bridgeOk := false } }
        { name := "web", network := "bridge",
          resource := { memoryLimit := "abc" } }).2.1 = .ok "cid" ∧
    (∃ c, lookupReg
        (NewContainer [] "cid"
          { spawnPid := 5, net := { bridgeOk := false } }
          { name := "web", network := "bridge",
            resource := { memoryLimit := "abc" } }).1 "cid" = some c ∧
      c.status = .running ∧ c.pid = 5) ∧
    LogEntry.resourceWarn ∈
      (NewContainer [] "cid"
        { spawnPid := 5, net := { bridgeOk := false } }
        { name := "web", network := "bridge",
          resource := { memoryLimit := "abc" } }).2.2 ∧
    LogEntry.networkWarn ∈
      (NewContainer [] "cid"
        { spawnPid := 5, net := { bridgeOk := false } }
        { name := "web", network := "bridge",
          resource := { memoryLimit := "abc" } }).2.2 := by
  have h := newContainer_success_best_effort [] "cid"
    { spawnPid := 5, net := { bridgeOk := false } }
    { name := "web", network := "bridge", resource := { memoryLimit := "abc" } }
    (by simp [nameInRegistry]) rfl rfl
  exact ⟨h.1, h.2.1, h.2.2.1 _ rfl, h.2.2.2 (by decide) (by decide) _ rfl⟩

/-- C5: `Remove` on an absent id fails with `NotFound` rather than crashing;
on a `Running` record it performs the full `Stop` sequence first,
propagating a stop failure with the registry — including the record —
untouched; and when the stop sequence succeeds, deletion happens from a
registry state in which the record's status reads `Stopped`, never
`Running`. -/
theorem removeContainer_spec (reg : Registry) (w : RemoveWorld) (id : String) :
    (lookupReg reg id = none →
      RemoveContainer reg w id = (reg, .error (.notFound id), [], [])) ∧
    (∀ c, lookupReg reg id = some c → c.status = .running →
      ((∀ e, (StopContainer reg w.stop id).2.1 = .error e →
          (RemoveContainer reg w id).1 = reg ∧
          (RemoveContainer reg w id).2.1 = .error (.stopFailed e) ∧
          lookupReg (RemoveContainer reg w id).1 id = some c) ∧
        ((StopContainer reg w.stop id).2.1 = .ok () →
          (RemoveContainer reg w id).1 =
            deleteReg (StopContainer reg w.stop id).1 id ∧
          (RemoveContainer reg w id).2.1 = .ok () ∧
          ∃ c', lookupReg (StopContainer reg w.stop id).1 id = some c' ∧
            c'.status = .stopped))) := by
  constructor
  · intro hl
    simp [RemoveContainer, hl]
  · intro c hl hrun
    constructor
    · intro e he
      have hunch := stopContainer_error_unchanged reg w.stop id e he
      refine ⟨?_, ?_, ?_⟩ <;> simp [RemoveContainer, hl, hrun, he, hunch]
    · intro he
      obtain ⟨c', hl', hs'⟩ := stopContainer_ok_stopped reg w.stop id he
      exact ⟨by simp [RemoveContainer, hl, hrun, he],
        by simp [RemoveContainer, hl, hrun, he], c', hl', hs'⟩

/-- Witness for C5: removing an absent id reports `NotFound`, and removing a
running container stops it (status `Stopped` in the intermediate registry)
before deleting the record. -/
theorem removeContainer_spec_witness :
    RemoveContainer [] {} "absent" = ([], .error (.notFound "absent"), [], []) ∧
    ((RemoveContainer [("c3", { id := "c3", status := Status.running })] {} "c3").1 =
        deleteReg
          (StopContainer [("c3", { id := "c3", status := Status.running })] {} "c3").1
          "c3" ∧
      (RemoveContainer [("c3", { id := "c3", status := Status.running })] {} "c3").2.1 =
        .ok () ∧
      ∃ c', lookupReg
          (StopContainer [("c3", { id := "c3", status := Status.running })] {} "c3").1
          "c3" = some c' ∧ c'.status = .stopped) :=
  ⟨(removeContainer_spec [] {} "absent").1 rfl,
    ((removeContainer_spec [("c3", { id := "c3", status := Status.running })] {} "c3").2
      { id := "c3", status := Status.running } rfl rfl).2 rfl⟩

/-- C1 (counterexample): `Wait` does not return the tracked process's
termination code to the caller. On the same `Running` record, two runs whose
true termination codes differ (0 and 1) produce identical caller-visible
results — the same returned value and the same final registry — so the
returned value cannot carry the process's true termination code. The Go
function returns only an `error`; the exit code is merely printed. -/
theorem waitContainer_no_exit_code_counterexample :
    (WaitContainer [("cid", { id := "cid", pid := 42, status := Status.running })]
        { exitCode := 0 } "cid").2.1 = .ok () ∧
    (WaitContainer [("cid", { id := "cid", pid := 42, status := Status.running })]
        { exitCode := 1 } "cid").2.1 = .ok () ∧
    (WaitContainer [("cid", { id := "cid", pid := 42, status := Status.running })]
        { exitCode := 0 } "cid").2.1 =
      (WaitContainer [("cid", { id := "cid", pid := 42, status := Status.running })]
        { exitCode := 1 } "cid").2.1 ∧
    (WaitContainer [("cid", { id := "cid", pid := 42, status := Status.running })]
        { exitCode := 0 } "cid").1 =
      (WaitContainer [("cid", { id := "cid", pid := 42, status := Status.running })]
        { exitCode := 1 } "cid").1 ∧
    (0 : Int) ≠ 1 :=
  ⟨rfl, rfl, rfl, rfl, by decide⟩

/-- C1 (amended): on a `Running` record, `Wait` blocks until the tracked
process terminates, sets the record's status to `Stopped`, returns success
to the caller (its only return value is a Go `error`), and reports the
process's true termination code by printing it together with the id
prefix. -/
theorem waitContainer_amended (reg : Registry) (w : WaitWorld) (id : String)
    (c : ContainerInfo) (hl : lookupReg reg id = some c) (hrun : c.status = .running)
    (hf : w.findProcessOk = true) (hw : w.waitOk = true) :
    WaitContainer reg w id =
      (setStatus reg id .stopped, .ok (),
        [LogEntry.exited (takeStr id 12) w.exitCode]) := by
  simp [WaitContainer, hl, hrun, hf, hw]

/-- Witness for C1 (amended): waiting on a concrete running container whose
process exits with code 7. -/
theorem waitContainer_amended_witness :
    WaitContainer [("cid", { id := "cid", pid := 42, status := Status.running })]
        { exitCode := 7 } "cid" =
      (setStatus [("cid", { id := "cid", pid := 42, status := Status.running })]
        "cid" .stopped, .ok (), [LogEntry.exited (takeStr "cid" 12) 7]) :=
  waitContainer_amended
    [("cid", { id := "cid", pid := 42, status := Status.running })]
    { exitCode := 7 } "cid" { id := "cid", pid := 42, status := Status.running }
    rfl rfl rfl rfl

/-- C3: `Create` fails with `DuplicateName` if and only if the requested
name is non-empty and equals the name of some record currently in the
registry; every sequence of `Create` calls with pairwise distinct non-empty
names (rootfs and spawn succeeding) succeeds in full from the initial empty
registry; and after a successful `Remove` of the sole holder of a name, a
later `Create` can reuse that name. -/
theorem createDuplicateName_spec :
    (∀ (reg : Registry) (id : String) (w : CreateWorld) (config : Config),
      (∃ n, (NewContainer reg id w config).2.1 = .error (.duplicateName n)) ↔
        (config.name ≠ "" ∧ ∃ p ∈ reg, p.2.name = config.name)) ∧
    (∀ calls : List (String × CreateWorld × Config),
      (∀ x ∈ calls, x.2.1.rootfsOk = true ∧ x.2.1.spawnOk = true ∧ x.2.2.name ≠ "") →
      (calls.map (fun x => x.2.2.name)).Pairwise (· ≠ ·) →
      (createAll [] calls).2 = true) ∧
    (∀ (reg : Registry) (w : RemoveWorld) (id : String) (c : ContainerInfo),
      lookupReg reg id = some c →
      (∀ p ∈ reg, p.1 ≠ id → p.2.name ≠ c.name) →
      (RemoveContainer reg w id).2.1 = .ok () →
      ∀ (id' : String) (w' : CreateWorld) (cfg : Config), cfg.name = c.name →
        w'.rootfsOk = true → w'.spawnOk = true →
        (NewContainer (RemoveContainer reg w id).1 id' w' cfg).2.1 = .ok id') := by
  refine ⟨?_, ?_, ?_⟩
  · intro reg id w config
    rw [← nameInRegistry_iff]
    constructor
    · rintro ⟨n, hn⟩
      by_contra hdup
      simp only [NewContainer, if_neg hdup] at hn
      rcases hr : w.rootfsOk with _ | _ <;> rcases hsp : w.spawnOk with _ | _ <;>
        simp_all
    · rintro ⟨hne, hin⟩
      refine ⟨config.name, ?_⟩
      simp [NewContainer, hne, hin]
  · intro calls hall hpw
    refine createAll_ok calls [] (fun x hx => ?_) hpw
    obtain ⟨hr, hsp, hname⟩ := hall x hx
    exact ⟨hr, hsp, hname, rfl⟩
  · intro reg w id c hl huniq hok id' w' cfg hcfg hr hsp
    have hfree : nameInRegistry (RemoveContainer reg w id).1 cfg.name = false := by
      rw [hcfg]
      exact nameInRegistry_removeContainer_ok hl huniq hok
    exact newContainer_ok_of_free _ id' w' cfg hfree hr hsp

/-- Witness for C3: reusing the still-active name `"web"` fails with
`DuplicateName`; two creates named `"a"` and `"b"` from the empty registry
both succeed; and after removing the only `"web"` container a later create
can take the name `"web"` again. -/
theorem createDuplicateName_spec_witness :
    (∃ n, (NewContainer [("id0", { id := "id0", name := "web" })] "id1" {}
        { name := "web" }).2.1 = .error (.duplicateName n)) ∧
    (createAll []
      [("ida", {}, { name := "a" }), ("idb", {}, { name := "b" })]).2 = true ∧
    (NewContainer
        (RemoveContainer
          [("id2", { id := "id2", name := "web", status := Status.stopped })]
          {} "id2").1
        "id3" {} { name := "web" }).2.1 = .ok "id3" := by
  refine ⟨?_, ?_, ?_⟩
  · exact (createDuplicateName_spec.1 [("id0", { id := "id0", name := "web" })]
      "id1" {} { name := "web" }).mpr ⟨by decide, ("id0", { id := "id0", name := "web" }),
        by decide, rfl⟩
  · exact createDuplicateName_spec.2.1
      [("ida", {}, { name := "a" }), ("idb", {}, { name := "b" })]
      (by decide) (by decide)
  · exact createDuplicateName_spec.2.2
      [("id2", { id := "id2", name := "web", status := Status.stopped })] {} "id2"
      { id := "id2", name := "web", status := Status.stopped } rfl
      (by decide) rfl "id3" {} { name := "web" } rfl rfl rfl

end GoDocker
